import Mathlib

/-!
Verification of the paper-ingestion pipeline of `academic_paper_documentor`.

The Python sources (`config.py`, `pdf_extractor.py`, `llm_analyzer.py`,
`notion_client.py`, `paper_processor.py`) are shallowly embedded below.
Strings are modelled as `List Char`; Python whitespace classification,
`str.strip`, `str.split`, `str.replace` and friends are translated over the
ASCII range used by the program's own literals.  External collaborators
(the HTTP layer, PyMuPDF, the Gemini SDK, the Notion API) are modelled as
oracles: a function from attempt number to that attempt's outcome, or a
value describing the one reply the collaborator gives during a run.
-/

namespace PaperDoc

/-! ## Python string primitives -/

/-- Python whitespace (`str.strip`, regex `\s`) over the ASCII range. -/
def isPySpace (c : Char) : Bool :=
  c = ' ' || c = '\t' || c = '\n' || c = '\r' || c = '\x0b' || c = '\x0c'

/-- Python `str.lstrip()`. -/
def lstrip (s : List Char) : List Char := s.dropWhile isPySpace

/-- Python `str.rstrip()`. -/
def rstrip (s : List Char) : List Char := (s.reverse.dropWhile isPySpace).reverse

/-- Python `str.strip()`. -/
def strip (s : List Char) : List Char := lstrip (rstrip s)

/-- Does `pat` occur at the head of `s`?  (Python `str.startswith`.) -/
def startsWithL : List Char → List Char → Bool
  | [], _ => true
  | _ :: _, [] => false
  | p :: ps, c :: cs => p = c && startsWithL ps cs

/-- Does `pat` occur at the end of `s`?  (Python `str.endswith`.) -/
def endsWithL (pat s : List Char) : Bool := startsWithL pat.reverse s.reverse

/-- Does `pat` occur anywhere inside `s`?  (Python `in` on strings.) -/
def containsSub (pat : List Char) : List Char → Bool
  | [] => startsWithL pat []
  | c :: cs => startsWithL pat (c :: cs) || containsSub pat cs

/-- Python `str.split(sep)` for a one-character separator. -/
def splitOnChar (sep : Char) : List Char → List (List Char)
  | [] => [[]]
  | c :: rest =>
    let r := splitOnChar sep rest
    if c = sep then [] :: r else (c :: r.headD []) :: r.tail

/-- Fuel-driven worker for `replaceAll`; the fuel starts at the string's
length and never runs out while the pattern is nonempty, so the
fuel-exhausted branch is unreachable. -/
def replaceAllAux (pat rep : List Char) : Nat → List Char → List Char
  | _, [] => []
  | 0, s => s
  | fuel + 1, c :: cs =>
    if startsWithL pat (c :: cs) then
      rep ++ replaceAllAux pat rep fuel ((c :: cs).drop pat.length)
    else c :: replaceAllAux pat rep fuel cs

/-- Python `str.replace(pat, rep)` — every non-overlapping occurrence,
leftmost first.  `pat` is nonempty at every call site in the sources. -/
def replaceAll (s pat rep : List Char) : List Char :=
  if pat = [] then s else replaceAllAux pat rep s.length s

/-- Python `str.rstrip(ch)` for a single strip character. -/
def rstripChar (ch : Char) (s : List Char) : List Char :=
  (s.reverse.dropWhile (fun c => c = ch)).reverse

/-! ## config.py -/

/-- Source: `config.py`, `MAX_TEXT_LENGTH = 30_000`. -/
def MAX_TEXT_LENGTH : Nat := 30000

/-- Source: `config.py`, `REQUEST_RETRY_COUNT = 3`. -/
def REQUEST_RETRY_COUNT : Nat := 3

/-- Source: `config.py`, `REQUEST_RETRY_DELAY = 2.0` (seconds, modelled in ℚ). -/
def REQUEST_RETRY_DELAY : Rat := 2

/-! ## llm_analyzer.py — truncation -/

/-- Python `int(MAX_TEXT_LENGTH * 0.8)`; the float product is exactly
24000.0 at this magnitude, so the integer division below is exact. -/
def truncHead : Nat := MAX_TEXT_LENGTH * 8 / 10

/-- Remainder of the budget after the head share (`tail = MAX_TEXT_LENGTH - head`). -/
def truncTail : Nat := MAX_TEXT_LENGTH - truncHead

/-- The literal marker `"\n\n[…text truncated…]\n\n"` inserted by `_truncate`. -/
def TRUNC_MARKER : List Char := "\n\n[…text truncated…]\n\n".toList

/-- Source: `llm_analyzer._truncate` — keep the first 80 % and the last 20 %
of the allowed length. -/
def _truncate (text : List Char) : List Char :=
  if text.length ≤ MAX_TEXT_LENGTH then text
  else text.take truncHead ++ TRUNC_MARKER ++ text.drop (text.length - truncTail)

/-! ## llm_analyzer.py — response normalisation

A parsed JSON reply is modelled as an insertion-ordered association list
from key to JSON value, which is exactly the view of a Python `dict` that
`_normalise` relies on (`setdefault`, membership, item assignment). -/

/-- JSON values as far as `_normalise` distinguishes them. -/
inductive JVal where
  | null
  | str (s : List Char)
  | num (n : Int)
  | arr (xs : List JVal)

/-- A parsed service reply: a Python dict in insertion order. -/
abbrev JDict := List (List Char × JVal)

/-- Python `data[key]` lookup (first binding; dict keys are unique but the
model does not need that assumption). -/
def dlookup : JDict → List Char → Option JVal
  | [], _ => none
  | (k, v) :: rest, key => if k = key then some v else dlookup rest key

/-- Python `dict.setdefault(key, v)`: insert at the end only when absent. -/
def setdefault (d : JDict) (key : List Char) (v : JVal) : JDict :=
  match dlookup d key with
  | some _ => d
  | none => d ++ [(key, v)]

/-- Python `data[key] = v`: replace in place, append when absent. -/
def setVal : JDict → List Char → JVal → JDict
  | [], key, v => [(key, v)]
  | (k, w) :: rest, key, v =>
    if k = key then (k, v) :: rest else (k, w) :: setVal rest key v

/-- Python `[item.strip() for item in s.split(",") if item.strip()]`. -/
def splitCommaTokens (s : List Char) : List (List Char) :=
  ((splitOnChar ',' s).map strip).filter (fun t => t ≠ [])

/-- The comma-string coercion of `_normalise`: when the value stored at
`key` is a string, replace it with the list of trimmed nonempty tokens. -/
def coerceList (d : JDict) (key : List Char) : JDict :=
  match dlookup d key with
  | some (.str s) => setVal d key (.arr ((splitCommaTokens s).map JVal.str))
  | _ => d

/-- Source: `llm_analyzer._normalise` — default every expected key, then
coerce comma-joined strings for `keywords` and `main_topics`. -/
def _normalise (data : JDict) : JDict :=
  let d := setdefault data "title".toList .null
  let d := setdefault d "authors".toList .null
  let d := setdefault d "year".toList .null
  let d := setdefault d "keywords".toList (.arr [])
  let d := setdefault d "main_topics".toList (.arr [])
  let d := setdefault d "key_findings".toList (.str [])
  let d := setdefault d "methodology".toList (.str [])
  let d := setdefault d "relevance_score".toList (.str "Medium".toList)
  let d := setdefault d "research_area".toList (.str "Background".toList)
  let d := setdefault d "language".toList (.str "English".toList)
  let d := coerceList d "keywords".toList
  let d := coerceList d "main_topics".toList
  d

/-- The ten keys `_normalise` guarantees. -/
def expectedKeys : List (List Char) :=
  ["title".toList, "authors".toList, "year".toList, "keywords".toList,
   "main_topics".toList, "key_findings".toList, "methodology".toList,
   "relevance_score".toList, "research_area".toList, "language".toList]

/-! ## notion_client.py — duplicate guard -/

/-- Regex `re.sub(r"\s+", " ", ·)`: collapse every whitespace run to one
space.  The flag tracks whether the previous character was whitespace. -/
def collapseWsAux : Bool → List Char → List Char
  | _, [] => []
  | inWs, c :: rest =>
    if isPySpace c then
      if inWs then collapseWsAux true rest else ' ' :: collapseWsAux true rest
    else c :: collapseWsAux false rest

/-- Source: `notion_client._normalize_title` — collapse whitespace runs,
trim, lower-case (ASCII lowering, which covers the program's data). -/
def _normalize_title (title : List Char) : List Char :=
  (strip (collapseWsAux false title)).map Char.toLower

/-- One candidate page returned by the Notion database query.  A page
object always carries its `url`; its `Title` property is a list of rich
text blocks whose first block's content is the stored title (an empty
block list reads as the empty title, as in the source). -/
structure NotionPage where
  titleBlocks : List (List Char)
  url : List Char
  deriving DecidableEq, Repr

/-- Python `title_blocks[0]["text"]["content"] if title_blocks else ""`. -/
def pageTitle (p : NotionPage) : List Char := p.titleBlocks.headD []

/-- Any exception raised while querying the catalog (transport or service). -/
inductive NotionErr where
  | httpError (msg : List Char)
  deriving DecidableEq, Repr

/-- The result-scanning loop of `check_duplicate`: first page whose
normalized stored title equals the normalized query title. -/
def findMatch (nt : List Char) : List NotionPage → Option (List Char)
  | [] => none
  | p :: rest =>
    if _normalize_title (pageTitle p) = nt then some p.url else findMatch nt rest

/-- Source: `notion_client.check_duplicate`.  The second component records
whether the catalog was contacted at all.  An empty title returns before
any request; any exception during the query is swallowed into `none`. -/
def check_duplicate (title : List Char)
    (svc : Except NotionErr (List NotionPage)) : Option (List Char) × Bool :=
  if title = [] then (none, false)
  else
    match svc with
    | .error _ => (none, true)
    | .ok pages => (findMatch (_normalize_title title) pages, true)

/-! ## pdf_extractor.py — extraction -/

/-- Extraction failure taxonomy of `extract_text_from_pdf` (the spec's
`NotFound`, `Unreadable`, `PasswordProtected`, `LikelyScanned`). -/
inductive ExtractErr where
  | notFound
  | unreadable
  | passwordProtected
  | likelyScanned
  deriving DecidableEq, Repr

/-- The PyMuPDF view of one document: whether it opens, its encryption
state, whether empty-password authentication succeeds, the per-page
extracted text, and the document-level metadata hints. -/
structure FitzDoc where
  openOk : Bool
  encrypted : Bool
  authEmptyOk : Bool
  pages : List (List Char)
  metaTitle : Option (List Char)
  metaAuthor : Option (List Char)
  deriving DecidableEq, Repr

/-- The fields of `ExtractedPaper` the claims reach (the abstract heuristic
and the raw metadata mapping are carried by no claim and are left out). -/
structure ExtractedPaper where
  title : Option (List Char)
  authors : Option (List Char)
  body_text : List Char
  num_pages : Nat
  deriving DecidableEq, Repr

/-- The five ligature substitutions of `_clean_text`. -/
def LIGATURES : List (List Char × List Char) :=
  [("ﬁ".toList, "fi".toList), ("ﬂ".toList, "fl".toList),
   ("ﬀ".toList, "ff".toList), ("ﬃ".toList, "ffi".toList),
   ("ﬄ".toList, "ffl".toList)]

def fixLigatures (t : List Char) : List Char :=
  LIGATURES.foldl (fun acc pr => replaceAll acc pr.1 pr.2) t

/-- Emit a pending newline run, capped at two (regex `\n{3,}` → `"\n\n"`). -/
def emitNl (n : Nat) : List Char := List.replicate (min n 2) '\n'

def collapseNlAux (pending : Nat) : List Char → List Char
  | [] => emitNl pending
  | c :: rest =>
    if c = '\n' then collapseNlAux (pending + 1) rest
    else emitNl pending ++ c :: collapseNlAux 0 rest

/-- Regex `re.sub(r"\n{3,}", "\n\n", ·)`. -/
def collapseNl (s : List Char) : List Char := collapseNlAux 0 s

/-- Python `"\n".join(xs)` for a one-character joiner. -/
def joinChar (c : Char) (xs : List (List Char)) : List Char :=
  (xs.intersperse [c]).flatten

/-- Python `"\n".join(line.rstrip() for line in text.split("\n"))`. -/
def rstripLines (t : List Char) : List Char :=
  joinChar '\n' ((splitOnChar '\n' t).map rstrip)

/-- Source: `pdf_extractor._clean_text`. -/
def clean_text (text : List Char) : List Char :=
  strip (rstripLines (collapseNl (fixLigatures text)))

/-- The title-fallback scan of `_detect_title`: first line whose stripped
form is longer than 5 characters. -/
def firstGoodLine : List (List Char) → Option (List Char)
  | [] => none
  | l :: rest =>
    let s := strip l
    if 5 < s.length then some s else firstGoodLine rest

/-- Source: `pdf_extractor._detect_title`. -/
def detect_title (text : List Char) (metaTitle : Option (List Char)) :
    Option (List Char) :=
  match metaTitle with
  | some mt =>
    if mt ≠ [] ∧ 3 < (strip mt).length then some (strip mt)
    else firstGoodLine (splitOnChar '\n' text)
  | none => firstGoodLine (splitOnChar '\n' text)

/-- Pages whose text is non-whitespace, joined with blank lines: the `raw`
string of `extract_text_from_pdf`. -/
def rawText (doc : FitzDoc) : List Char :=
  List.intercalate "\n\n".toList (doc.pages.filter (fun t => strip t ≠ []))

/-- Source: `pdf_extractor.extract_text_from_pdf` — guards in source
order, then the scanned-PDF check on `len(raw.strip())`, then construction
of the `ExtractedPaper` (abstract detection omitted, see above). -/
def extract_text_from_pdf (fileOk : Bool) (doc : FitzDoc) :
    Except ExtractErr ExtractedPaper :=
  if ¬ fileOk then .error .notFound
  else if ¬ doc.openOk then .error .unreadable
  else if doc.encrypted ∧ ¬ doc.authEmptyOk then .error .passwordProtected
  else
    let num_pages := doc.pages.length
    let raw := rawText doc
    if (strip raw).length < 100 ∧ 0 < num_pages then .error .likelyScanned
    else
      let cleaned := clean_text raw
      .ok { title := detect_title cleaned doc.metaTitle
            authors := doc.metaAuthor
            body_text := cleaned
            num_pages := num_pages }

/-- Modelled from the spec (C6): the count of non-whitespace characters of
the extracted text — the measure the spec's `LikelyScanned` sentence names,
stated for comparison with the source's `len(raw.strip())`. -/
def specNonWsLen (s : List Char) : Nat :=
  (s.filter (fun c => ¬ isPySpace c)).length

/-! ## pdf_extractor.py — download -/

/-- Outcome of one `requests.get` attempt: a saved temp file, or a
`requests.RequestException` rendered as its message string. -/
inductive DlOutcome where
  | ok (path : List Char)
  | reqError (e : List Char)

/-- The URL rewriting at the head of `download_pdf` (arXiv `/abs/` →
`/pdf/` + `.pdf`; ScienceDirect `/abs/` → `/pdfft`). -/
def preprocessUrl (url : List Char) : List Char :=
  let url :=
    if containsSub "arxiv.org/abs/".toList url then
      let u := replaceAll url "/abs/".toList "/pdf/".toList
      if endsWithL ".pdf".toList u then u else u ++ ".pdf".toList
    else url
  if containsSub "sciencedirect.com".toList url ∧ containsSub "/abs/".toList url then
    let u := replaceAll url "/abs/".toList "/".toList
    if endsWithL "/pdfft".toList u then u else rstripChar '/' u ++ "/pdfft".toList
  else url

/-- The error text built after the retry loop of `download_pdf`: the base
line, then the 403 / 404 / generic refinement chosen from the last error
(the 403 variant further depends on the URL). -/
def downloadErrMsg (url lastErr : List Char) : List Char :=
  let base := "Download failed after 3 attempts: ".toList ++ lastErr
  if containsSub "403".toList lastErr || containsSub "Forbidden".toList lastErr then
    if containsSub "sciencedirect.com".toList url then
      base ++ ("\n\n  ScienceDirect blocks automated downloads."
        ++ "\n  → Try using the DOI instead: python paper_processor.py --doi 10.xxxx/xxxxx"
        ++ "\n  → Or download the PDF manually and use: python paper_processor.py --pdf file.pdf").toList
    else
      base ++ ("\n\n  This URL appears to be blocked (403 Forbidden)."
        ++ "\n  → The paper may be paywalled or behind bot protection"
        ++ "\n  → Try using --doi if you have the paper's DOI"
        ++ "\n  → Or download manually and use --pdf").toList
  else if containsSub "404".toList lastErr then
    base ++ ("\n\n  URL not found (404). Check that the URL is correct."
      ++ "\n  → Make sure it's a direct PDF link, not an abstract page").toList
  else base

/-- The retry loop of `download_pdf`: `attempt` is the 1-based attempt
number, `remaining` the attempts still allowed, `lastErr` the last error's
text.  Returns the result, the number of the last attempt made, and the
sleeps taken between attempts (each the fixed `REQUEST_RETRY_DELAY`). -/
def downloadAux (url : List Char) (outs : Nat → DlOutcome)
    (attempt remaining : Nat) (lastErr : List Char) :
    Except (List Char) (List Char) × Nat × List Rat :=
  match remaining with
  | 0 => (.error (downloadErrMsg url lastErr), attempt - 1, [])
  | r + 1 =>
    match outs attempt with
    | .ok p => (.ok p, attempt, [])
    | .reqError e =>
      if r = 0 then (.error (downloadErrMsg url e), attempt, [])
      else
        let res := downloadAux url outs (attempt + 1) r e
        (res.1, res.2.1, REQUEST_RETRY_DELAY :: res.2.2)

/-- Source: `pdf_extractor.download_pdf` — rewrite the URL, then fetch with
the bounded retry budget. -/
def download_pdf (url0 : List Char) (outs : Nat → DlOutcome) :
    Except (List Char) (List Char) × Nat × List Rat :=
  downloadAux (preprocessUrl url0) outs 1 REQUEST_RETRY_COUNT []

/-! ## pdf_extractor.py — DOI resolution -/

/-- The DOI normalisation at the head of `resolve_doi_to_pdf` (Python
`str.replace` removes every occurrence; each branch is guarded by the
corresponding `startswith`). -/
def doiNormalize (doi : List Char) : List Char :=
  let c := strip doi
  if startsWithL "https://doi.org/".toList c then
    replaceAll c "https://doi.org/".toList []
  else if startsWithL "http://doi.org/".toList c then
    replaceAll c "http://doi.org/".toList []
  else if startsWithL "doi:".toList c then
    replaceAll c "doi:".toList []
  else c

/-- Greedy `\d+` (digits cannot backtrack into the following `\.`). -/
def spanDigits (s : List Char) : List Char × List Char :=
  (s.takeWhile (fun c => c.isDigit), s.dropWhile (fun c => c.isDigit))

/-- Exactly `n` digits, as in `\d{n}` followed by a non-optional literal. -/
def takeExactDigits (n : Nat) (s : List Char) :
    Option (List Char × List Char) :=
  let pre := s.take n
  if pre.length = n ∧ pre.all (fun c => c.isDigit) then some (pre, s.drop n)
  else none

/-- Prefix match of `10\.48550/arXiv\.(\d+\.\d+)`, returning group 1. -/
def arxivMatch (s : List Char) : Option (List Char) :=
  if startsWithL "10.48550/arXiv.".toList s then
    let rest := s.drop "10.48550/arXiv.".toList.length
    let d1 := (spanDigits rest).1
    let r1 := (spanDigits rest).2
    if d1 = [] then none
    else
      match r1 with
      | '.' :: r2 =>
        let d2 := (spanDigits r2).1
        if d2 = [] then none else some (d1 ++ '.' :: d2)
      | _ => none
  else none

/-- Prefix match of `10\.1101/(\d{4}\.\d{2}\.\d{2}\.\d+)`, group 1. -/
def bioMatch (s : List Char) : Option (List Char) :=
  if startsWithL "10.1101/".toList s then
    let rest := s.drop "10.1101/".toList.length
    match takeExactDigits 4 rest with
    | some (d1, '.' :: r1) =>
      match takeExactDigits 2 r1 with
      | some (d2, '.' :: r2) =>
        match takeExactDigits 2 r2 with
        | some (d3, '.' :: r3) =>
          let d4 := (spanDigits r3).1
          if d4 = [] then none
          else some (d1 ++ '.' :: d2 ++ '.' :: d3 ++ '.' :: d4)
        | _ => none
      | _ => none
    | _ => none
  else none

/-- What the strategy-3 DOI redirect produced: the response was itself a
PDF (saved to a temp path), an absolute PDF link was found on the landing
page, or nothing usable (including any exception, which the source logs
and falls through). -/
inductive DoiStrat3 where
  | pdfContent (tmpPath : List Char)
  | pageLink (url : List Char)
  | nothing

/-- The final error text of `resolve_doi_to_pdf`. -/
def doiErrMsg (c : List Char) : List Char :=
  "Could not resolve DOI ".toList ++ c ++
    (" to a PDF URL.\n  → This may be a paywalled paper without open access.\n"
      ++ "  → Try downloading the PDF manually and using --pdf instead.\n"
      ++ "  → Or check the paper at: https://doi.org/").toList ++ c

/-- Source: `pdf_extractor.resolve_doi_to_pdf` — normalise, then the three
strategies in order: open-access lookup, publisher DOI patterns (arXiv
before bioRxiv), redirect scan. -/
def resolve_doi_to_pdf (doi : List Char) (oaHit : Option (List Char))
    (s3 : DoiStrat3) : Except (List Char) (List Char) :=
  let c := doiNormalize doi
  match oaHit with
  | some url => .ok url
  | none =>
    match arxivMatch c with
    | some g => .ok ("https://arxiv.org/pdf/".toList ++ g ++ ".pdf".toList)
    | none =>
      match bioMatch c with
      | some _ =>
        .ok ("https://www.biorxiv.org/content/".toList ++ c ++ "v1.full.pdf".toList)
      | none =>
        match s3 with
        | .pdfContent p => .ok p
        | .pageLink u => .ok u
        | .nothing => .error (doiErrMsg c)

/-! ## llm_analyzer.py — the analyze loop -/

/-- Outcome of one `model.generate_content` call, classified the way the
`try` block of `analyze_paper` reacts to it: a non-empty reply whose body
parses to a dict, an empty reply, an unparseable reply (both raise
`RuntimeError`, which the loop re-raises at once), or any other exception
from the SDK (retried). -/
inductive GeminiOutcome where
  | reply (d : JDict)
  | emptyReply
  | unparseable
  | transportError (e : List Char)

/-- How a run of `analyze_paper` ends: a normalised result, the fail-fast
`RuntimeError` for an invalid reply (the spec's `InvalidResponse`), or the
post-loop `RuntimeError` (the spec's `ServiceUnavailable`). -/
inductive AnalyzeOutcome where
  | ok (d : JDict)
  | invalidResponse
  | serviceUnavailable (lastErr : Option (List Char))

/-- The retry loop of `analyze_paper`: returns the outcome, the number of
the last attempt made, and the back-off sleeps taken between attempts
(`REQUEST_RETRY_DELAY * 2 ** (attempt - 1)`). -/
def analyzeAux (outs : Nat → GeminiOutcome) (attempt remaining : Nat)
    (lastErr : Option (List Char)) : AnalyzeOutcome × Nat × List Rat :=
  match remaining with
  | 0 => (.serviceUnavailable lastErr, attempt - 1, [])
  | r + 1 =>
    match outs attempt with
    | .reply d => (.ok (_normalise d), attempt, [])
    | .emptyReply => (.invalidResponse, attempt, [])
    | .unparseable => (.invalidResponse, attempt, [])
    | .transportError e =>
      if r = 0 then (.serviceUnavailable (some e), attempt, [])
      else
        let res := analyzeAux outs (attempt + 1) r (some e)
        (res.1, res.2.1, REQUEST_RETRY_DELAY * 2 ^ (attempt - 1) :: res.2.2)

/-- Source: `llm_analyzer.analyze_paper` — build the prompt from the
truncated text, then call the service under the bounded retry budget.  The
collaborator is an oracle from the prompt and the attempt number to that
attempt's outcome. -/
def analyze_paper (paper_text : List Char)
    (outs : List Char → Nat → GeminiOutcome) : AnalyzeOutcome × Nat × List Rat :=
  analyzeAux (outs (_truncate paper_text)) 1 REQUEST_RETRY_COUNT none

/-! ## paper_processor.py — the orchestrator -/

/-- How a component call ends when it does not succeed: with one of the
exception classes `process_single_paper` catches (`FileNotFoundError`,
`RuntimeError` — the pipeline prints and returns `False`), or with any
other exception (propagates to the caller; `finally` still runs). -/
inductive StepErr where
  | caught
  | uncaught
  deriving DecidableEq, Repr

/-- External calls made during one run, in order of occurrence. -/
inductive Ev where
  | downloadEv
  | extractEv
  | dupQueryEv
  | analyzeEv
  | createEv
  deriving DecidableEq, Repr

/-- The run's verdict: `return True`, `return False`, or a propagated
exception. -/
inductive Verdict where
  | success
  | failure
  | raised
  deriving DecidableEq, Repr

/-- The fields of the analysis dict the orchestrator itself reads
(the metadata fallback of lines 140–143). -/
structure Analysis where
  title : Option (List Char)
  authors : Option (List Char)
  deriving DecidableEq, Repr

/-- Oracle for one run: the outcome each component call would produce when
reached.  Quantifying theorems over this covers every exit path. -/
structure PipeEnv where
  downloadResult : Except StepErr (List Char)
  extractResult : Except StepErr ExtractedPaper
  dupService : Except NotionErr (List NotionPage)
  analyzeResult : Except StepErr Analysis
  createResult : Except StepErr (List Char)

/-- State threaded through the `try` body: verdict so far, file system, events,
the `downloaded` flag and `pdf_path` variable of the source. -/
structure BodyOut where
  verdict : Verdict
  fs : List Char → Bool
  events : List Ev
  downloaded : Bool
  pdfPath : Option (List Char)

/-- Result of a whole run (after `finally`). -/
structure RunOut where
  verdict : Verdict
  fs : List Char → Bool
  events : List Ev

def addFile (fs : List Char → Bool) (p : List Char) : List Char → Bool :=
  fun q => if q = p then true else fs q

def removeFile (fs : List Char → Bool) (p : List Char) : List Char → Bool :=
  fun q => if q = p then false else fs q

/-- Python truthiness of an optional string. -/
def truthyOpt : Option (List Char) → Bool
  | none => false
  | some t => !t.isEmpty

def createStage (env : PipeEnv) (_analysis : Analysis) (fs : List Char → Bool)
    (evs : List Ev) (downloaded : Bool) (pdfPath : Option (List Char)) : BodyOut :=
  let evs := evs ++ [Ev.createEv]
  match env.createResult with
  | .ok _ => ⟨.success, fs, evs, downloaded, pdfPath⟩
  | .error .caught => ⟨.failure, fs, evs, downloaded, pdfPath⟩
  | .error .uncaught => ⟨.raised, fs, evs, downloaded, pdfPath⟩

def analyzeStage (env : PipeEnv) (paper : ExtractedPaper) (fs : List Char → Bool)
    (evs : List Ev) (downloaded : Bool) (pdfPath : Option (List Char)) : BodyOut :=
  let evs := evs ++ [Ev.analyzeEv]
  match env.analyzeResult with
  | .error .caught => ⟨.failure, fs, evs, downloaded, pdfPath⟩
  | .error .uncaught => ⟨.raised, fs, evs, downloaded, pdfPath⟩
  | .ok a0 =>
    let a1 := if !truthyOpt a0.title && truthyOpt paper.title then
        { a0 with title := paper.title } else a0
    let a2 := if !truthyOpt a1.authors && truthyOpt paper.authors then
        { a1 with authors := paper.authors } else a1
    createStage env a2 fs evs downloaded pdfPath

def dupStage (env : PipeEnv) (paper : ExtractedPaper) (fs : List Char → Bool)
    (evs : List Ev) (downloaded : Bool) (pdfPath : Option (List Char)) : BodyOut :=
  if truthyOpt paper.title then
    let res := check_duplicate (paper.title.getD []) env.dupService
    let evs := evs ++ (if res.2 then [Ev.dupQueryEv] else [])
    match res.1 with
    | some u =>
      if u = [] then analyzeStage env paper fs evs downloaded pdfPath
      else ⟨.success, fs, evs, downloaded, pdfPath⟩
    | none => analyzeStage env paper fs evs downloaded pdfPath
  else analyzeStage env paper fs evs downloaded pdfPath

def extractStage (env : PipeEnv) (fs : List Char → Bool) (evs : List Ev)
    (downloaded : Bool) (pdfPath : Option (List Char)) : BodyOut :=
  let evs := evs ++ [Ev.extractEv]
  match env.extractResult with
  | .error .caught => ⟨.failure, fs, evs, downloaded, pdfPath⟩
  | .error .uncaught => ⟨.raised, fs, evs, downloaded, pdfPath⟩
  | .ok paper => dupStage env paper fs evs downloaded pdfPath

/-- The `try` body of `process_single_paper` (lines 111–155): acquire the
PDF (download for a URL input, `isfile` check for a local one), then the
extract / dedupe / analyse / create sequence.  `os.path.abspath` is the
identity in the model. -/
def runBody (is_url : Bool) (input : List Char) (env : PipeEnv)
    (fs0 : List Char → Bool) : BodyOut :=
  if is_url then
    match env.downloadResult with
    | .ok p => extractStage env (addFile fs0 p) [Ev.downloadEv] true (some p)
    | .error .caught => ⟨.failure, fs0, [Ev.downloadEv], false, none⟩
    | .error .uncaught => ⟨.raised, fs0, [Ev.downloadEv], false, none⟩
  else
    if fs0 input then extractStage env fs0 [] false (some input)
    else ⟨.failure, fs0, [], false, some input⟩

/-- Source: `paper_processor.process_single_paper` — the `try` body, then
the `finally` block: delete `pdf_path` iff it was downloaded, is truthy,
and still exists. -/
def process_single_paper (is_url : Bool) (input : List Char) (env : PipeEnv)
    (fs0 : List Char → Bool) : RunOut :=
  let b := runBody is_url input env fs0
  let fs1 :=
    match b.pdfPath with
    | some p => if b.downloaded && !p.isEmpty && b.fs p then removeFile b.fs p else b.fs
    | none => b.fs
  ⟨b.verdict, fs1, b.events⟩

/-! ## Concrete fixtures used by counterexamples and witnesses -/

/-- A one-page document whose extracted text holds only two non-whitespace
characters separated by a long run of interior spaces. -/
def scannedLikeDoc : FitzDoc :=
  { openOk := true, encrypted := false, authEmptyOk := true,
    pages := [('a' :: (List.replicate 200 ' ' ++ ['b']))],
    metaTitle := none, metaAuthor := none }

/-- Five pages of eight characters each: 40 extracted characters. -/
def fortyCharDoc : FitzDoc :=
  { openOk := true, encrypted := false, authEmptyOk := true,
    pages := List.replicate 5 (List.replicate 8 'x'),
    metaTitle := none, metaAuthor := none }

/-- Five pages of one hundred characters each: 500 extracted characters. -/
def richTextDoc : FitzDoc :=
  { openOk := true, encrypted := false, authEmptyOk := true,
    pages := List.replicate 5 (List.replicate 100 'x'),
    metaTitle := none, metaAuthor := none }

/-- A paper whose detected title is the empty string (Python-falsy). -/
def untitledPaper : ExtractedPaper :=
  { title := some [], authors := none, body_text := "hello body".toList,
    num_pages := 1 }

/-- A fully successful environment for a URL-input run. -/
def sampleEnvUrl : PipeEnv :=
  { downloadResult := .ok "/tmp/tmpabc.pdf".toList,
    extractResult := .ok untitledPaper,
    dupService := .ok [],
    analyzeResult := .ok { title := none, authors := none },
    createResult := .ok "https://notion.example/page".toList }

theorem dlookup_append_right (d : JDict) (key : List Char) (e : JDict)
    (h : dlookup d key = none) : dlookup (d ++ e) key = dlookup e key := by
  induction d with
  | nil => simp
  | cons kv rest ih =>
    obtain ⟨k, v⟩ := kv
    by_cases hk : k = key
    · simp [dlookup, hk] at h
    · simp only [dlookup, hk, if_neg hk, List.cons_append] at h ⊢
      exact ih h

theorem dlookup_setdefault_self (d : JDict) (key : List Char) (v : JVal) :
    dlookup (setdefault d key v) key = some ((dlookup d key).getD v) := by
  unfold setdefault
  cases h : dlookup d key with
  | some w => simp [h]
  | none => simp [dlookup_append_right d key _ h, dlookup]

theorem dlookup_setdefault_ne (d : JDict) (key key' : List Char) (v : JVal)
    (h : key' ≠ key) : dlookup (setdefault d key v) key' = dlookup d key' := by
  unfold setdefault
  cases hk : dlookup d key with
  | some w => rfl
  | none =>
    induction d with
    | nil => simp [dlookup, h.symm]
    | cons kv rest ih =>
      obtain ⟨k, w⟩ := kv
      by_cases hkk : k = key'
      · simp [dlookup, hkk]
      · simp only [dlookup, if_neg hkk] at hk ⊢
        by_cases hk2 : k = key
        · simp [dlookup, hk2] at hk
        · simp only [dlookup, if_neg hk2] at hk
          simpa [dlookup, hkk] using ih hk

theorem dlookup_setVal_self (d : JDict) (key : List Char) (v : JVal) :
    dlookup (setVal d key v) key = some v := by
  induction d with
  | nil => simp [setVal, dlookup]
  | cons kv rest ih =>
    obtain ⟨k, w⟩ := kv
    by_cases hk : k = key
    · simp [setVal, hk, dlookup]
    · simp [setVal, hk, dlookup, ih]

theorem dlookup_setVal_ne (d : JDict) (key key' : List Char) (v : JVal)
    (h : key' ≠ key) : dlookup (setVal d key v) key' = dlookup d key' := by
  induction d with
  | nil => simp [setVal, dlookup, h.symm]
  | cons kv rest ih =>
    obtain ⟨k, w⟩ := kv
    by_cases hk : k = key
    · subst hk
      have hne : ¬ k = key' := fun he => h he.symm
      simp [setVal, dlookup, hne]
    · simp [setVal, hk, dlookup, ih]

theorem dlookup_coerceList_ne (d : JDict) (key key' : List Char)
    (h : key' ≠ key) : dlookup (coerceList d key) key' = dlookup d key' := by
  unfold coerceList
  cases hk : dlookup d key with
  | none => rfl
  | some w => cases w <;> simp [dlookup_setVal_ne _ _ _ _ h]

theorem dlookup_coerceList_self (d : JDict) (key : List Char) :
    dlookup (coerceList d key) key =
      match dlookup d key with
      | some (.str s) => some (.arr ((splitCommaTokens s).map JVal.str))
      | o => o := by
  unfold coerceList
  cases hk : dlookup d key with
  | none => simp [hk]
  | some w => cases w <;> simp [hk, dlookup_setVal_self]

theorem dlookup_normalise_title (d : JDict) :
    dlookup (_normalise d) "title".toList =
      some ((dlookup d "title".toList).getD .null) := by
  simp +decide [_normalise, dlookup_coerceList_ne, dlookup_setdefault_ne,
    dlookup_setdefault_self]

theorem dlookup_normalise_authors (d : JDict) :
    dlookup (_normalise d) "authors".toList =
      some ((dlookup d "authors".toList).getD .null) := by
  simp +decide [_normalise, dlookup_coerceList_ne, dlookup_setdefault_ne,
    dlookup_setdefault_self]

theorem dlookup_normalise_year (d : JDict) :
    dlookup (_normalise d) "year".toList =
      some ((dlookup d "year".toList).getD .null) := by
  simp +decide [_normalise, dlookup_coerceList_ne, dlookup_setdefault_ne,
    dlookup_setdefault_self]

theorem dlookup_normalise_key_findings (d : JDict) :
    dlookup (_normalise d) "key_findings".toList =
      some ((dlookup d "key_findings".toList).getD (.str [])) := by
  simp +decide [_normalise, dlookup_coerceList_ne, dlookup_setdefault_ne,
    dlookup_setdefault_self]

theorem dlookup_normalise_methodology (d : JDict) :
    dlookup (_normalise d) "methodology".toList =
      some ((dlookup d "methodology".toList).getD (.str [])) := by
  simp +decide [_normalise, dlookup_coerceList_ne, dlookup_setdefault_ne,
    dlookup_setdefault_self]

theorem dlookup_normalise_relevance_score (d : JDict) :
    dlookup (_normalise d) "relevance_score".toList =
      some ((dlookup d "relevance_score".toList).getD (.str "Medium".toList)) := by
  simp +decide [_normalise, dlookup_coerceList_ne, dlookup_setdefault_ne,
    dlookup_setdefault_self]

theorem dlookup_normalise_research_area (d : JDict) :
    dlookup (_normalise d) "research_area".toList =
      some ((dlookup d "research_area".toList).getD (.str "Background".toList)) := by
  simp +decide [_normalise, dlookup_coerceList_ne, dlookup_setdefault_ne,
    dlookup_setdefault_self]

theorem dlookup_normalise_language (d : JDict) :
    dlookup (_normalise d) "language".toList =
      some ((dlookup d "language".toList).getD (.str "English".toList)) := by
  simp +decide [_normalise, dlookup_coerceList_ne, dlookup_setdefault_ne,
    dlookup_setdefault_self]

theorem dlookup_normalise_keywords (d : JDict) :
    dlookup (_normalise d) "keywords".toList =
      (match (dlookup d "keywords".toList).getD (.arr []) with
       | .str s => some (.arr ((splitCommaTokens s).map JVal.str))
       | o => some o) := by
  cases hv : dlookup d "keywords".toList with
  | none =>
    simp only [String.toList] at hv
    simp +decide [_normalise, dlookup_coerceList_ne, dlookup_coerceList_self,
      dlookup_setdefault_ne, dlookup_setdefault_self, hv]
  | some v =>
    simp only [String.toList] at hv
    cases v <;>
      simp +decide [_normalise, dlookup_coerceList_ne, dlookup_coerceList_self,
        dlookup_setdefault_ne, dlookup_setdefault_self, hv]

theorem dlookup_normalise_main_topics (d : JDict) :
    dlookup (_normalise d) "main_topics".toList =
      (match (dlookup d "main_topics".toList).getD (.arr []) with
       | .str s => some (.arr ((splitCommaTokens s).map JVal.str))
       | o => some o) := by
  cases hv : dlookup d "main_topics".toList with
  | none =>
    simp only [String.toList] at hv
    simp +decide [_normalise, dlookup_coerceList_ne, dlookup_coerceList_self,
      dlookup_setdefault_ne, dlookup_setdefault_self, hv]
  | some v =>
    simp only [String.toList] at hv
    cases v <;>
      simp +decide [_normalise, dlookup_coerceList_ne, dlookup_coerceList_self,
        dlookup_setdefault_ne, dlookup_setdefault_self, hv]

end PaperDoc

namespace PaperDoc

/-- C2: below the budget the truncation is the identity; above the budget it
is the 80 % head, the marker, and the 20 % tail, with total length equal to
the budget plus the marker's length. -/
theorem truncate_spec (x : List Char) :
    (x.length ≤ MAX_TEXT_LENGTH → _truncate x = x) ∧
    (MAX_TEXT_LENGTH < x.length →
      _truncate x =
        x.take (MAX_TEXT_LENGTH * 8 / 10) ++ TRUNC_MARKER ++
          x.drop (x.length - MAX_TEXT_LENGTH * 2 / 10) ∧
      (_truncate x).length = MAX_TEXT_LENGTH + TRUNC_MARKER.length) := by
  constructor
  · intro h
    simp [_truncate, h]
  · intro h
    have hgt : ¬ x.length ≤ MAX_TEXT_LENGTH := by omega
    have hdef : _truncate x =
        x.take truncHead ++ TRUNC_MARKER ++ x.drop (x.length - truncTail) := by
      simp [_truncate, hgt]
    have hhead : truncHead = MAX_TEXT_LENGTH * 8 / 10 := rfl
    have htail : truncTail = MAX_TEXT_LENGTH * 2 / 10 := by
      simp [truncTail, truncHead, MAX_TEXT_LENGTH]
    refine ⟨by rw [hdef, hhead, htail], ?_⟩
    rw [hdef]
    simp only [List.length_append, List.length_take, List.length_drop]
    have h30 : MAX_TEXT_LENGTH = 30000 := rfl
    have hh : truncHead = 24000 := rfl
    have ht : truncTail = 6000 := rfl
    omega

/-- Witness for C2 at concrete inputs on both sides of the budget. -/
theorem truncate_spec_witness :
    _truncate "short text".toList = "short text".toList ∧
    (_truncate (List.replicate 30001 'a')).length =
      MAX_TEXT_LENGTH + TRUNC_MARKER.length := by
  constructor
  · exact (truncate_spec _).1 (by decide)
  · exact ((truncate_spec (List.replicate 30001 'a')).2
      (by rw [List.length_replicate]; decide)).2

/-- Counterexample to C3 as stated: on a reply missing every key, the
normaliser fills `title` (a string field) with `null`, not with the empty
string the claim names. -/
theorem normalise_title_null_counterexample :
    dlookup (_normalise []) "title".toList = some JVal.null ∧
    JVal.null ≠ JVal.str [] := by
  refine ⟨rfl, fun h => ?_⟩
  cases h

/-- C3 (amended): after `_normalise` every expected key is present; a key
the reply lacks is filled with the code's default — `null` for `title`,
`authors` and `year`, the empty list for `keywords` and `main_topics`, the
empty string for `key_findings` and `methodology`, and `"Medium"`,
`"Background"`, `"English"` for the three select fields; a string-valued
`keywords` or `main_topics` is coerced to the ordered trimmed nonempty
comma-separated tokens. -/
theorem normalise_spec (d : JDict) :
    (∀ k ∈ expectedKeys, (dlookup (_normalise d) k).isSome = true) ∧
    (dlookup d "title".toList = none →
      dlookup (_normalise d) "title".toList = some .null) ∧
    (dlookup d "authors".toList = none →
      dlookup (_normalise d) "authors".toList = some .null) ∧
    (dlookup d "year".toList = none →
      dlookup (_normalise d) "year".toList = some .null) ∧
    (dlookup d "keywords".toList = none →
      dlookup (_normalise d) "keywords".toList = some (.arr [])) ∧
    (dlookup d "main_topics".toList = none →
      dlookup (_normalise d) "main_topics".toList = some (.arr [])) ∧
    (dlookup d "key_findings".toList = none →
      dlookup (_normalise d) "key_findings".toList = some (.str [])) ∧
    (dlookup d "methodology".toList = none →
      dlookup (_normalise d) "methodology".toList = some (.str [])) ∧
    (dlookup d "relevance_score".toList = none →
      dlookup (_normalise d) "relevance_score".toList = some (.str "Medium".toList)) ∧
    (dlookup d "research_area".toList = none →
      dlookup (_normalise d) "research_area".toList = some (.str "Background".toList)) ∧
    (dlookup d "language".toList = none →
      dlookup (_normalise d) "language".toList = some (.str "English".toList)) ∧
    (∀ s, dlookup d "keywords".toList = some (.str s) →
      dlookup (_normalise d) "keywords".toList =
        some (.arr ((splitCommaTokens s).map JVal.str))) ∧
    (∀ s, dlookup d "main_topics".toList = some (.str s) →
      dlookup (_normalise d) "main_topics".toList =
        some (.arr ((splitCommaTokens s).map JVal.str))) := by
  refine ⟨?_, ?_, ?_, ?_, ?_, ?_, ?_, ?_, ?_, ?_, ?_, ?_, ?_⟩
  · intro k hk
    fin_cases hk
    · rw [dlookup_normalise_title]; rfl
    · rw [dlookup_normalise_authors]; rfl
    · rw [dlookup_normalise_year]; rfl
    · rw [dlookup_normalise_keywords]
      cases (dlookup d "keywords".toList).getD (.arr []) <;> rfl
    · rw [dlookup_normalise_main_topics]
      cases (dlookup d "main_topics".toList).getD (.arr []) <;> rfl
    · rw [dlookup_normalise_key_findings]; rfl
    · rw [dlookup_normalise_methodology]; rfl
    · rw [dlookup_normalise_relevance_score]; rfl
    · rw [dlookup_normalise_research_area]; rfl
    · rw [dlookup_normalise_language]; rfl
  · intro h; rw [dlookup_normalise_title, h]; rfl
  · intro h; rw [dlookup_normalise_authors, h]; rfl
  · intro h; rw [dlookup_normalise_year, h]; rfl
  · intro h; rw [dlookup_normalise_keywords, h]; rfl
  · intro h; rw [dlookup_normalise_main_topics, h]; rfl
  · intro h; rw [dlookup_normalise_key_findings, h]; rfl
  · intro h; rw [dlookup_normalise_methodology, h]; rfl
  · intro h; rw [dlookup_normalise_relevance_score, h]; rfl
  · intro h; rw [dlookup_normalise_research_area, h]; rfl
  · intro h; rw [dlookup_normalise_language, h]; rfl
  · intro s h; rw [dlookup_normalise_keywords, h]; rfl
  · intro s h; rw [dlookup_normalise_main_topics, h]; rfl

/-- Witness for C3 (amended) at the spec's own examples: a comma-joined
`keywords` string becomes the 3-token sequence, and a reply missing
`relevance_score` defaults it to `"Medium"`. -/
theorem normalise_spec_witness :
    dlookup (_normalise [("keywords".toList, JVal.str "a, b, c".toList)])
        "keywords".toList =
      some (.arr [.str "a".toList, .str "b".toList, .str "c".toList]) ∧
    dlookup (_normalise []) "relevance_score".toList =
      some (.str "Medium".toList) := by
  constructor
  · have h :=
      (normalise_spec [("keywords".toList, JVal.str "a, b, c".toList)]).2.2.2.2.2.2.2.2.2.2.2.1
        "a, b, c".toList rfl
    rw [h]
    rfl
  · exact (normalise_spec []).2.2.2.2.2.2.2.2.1 rfl

/-- The scanning loop of `check_duplicate` finds a page iff one has a
matching normalized title. -/
theorem findMatch_isSome (nt : List Char) (pages : List NotionPage) :
    (findMatch nt pages).isSome = true ↔
      ∃ p ∈ pages, _normalize_title (pageTitle p) = nt := by
  induction pages with
  | nil => simp [findMatch]
  | cons p rest ih =>
    by_cases hp : _normalize_title (pageTitle p) = nt
    · simp [findMatch, hp]
    · simp only [findMatch, if_neg hp, ih, List.mem_cons]
      constructor
      · rintro ⟨q, hq, h⟩; exact ⟨q, Or.inr hq, h⟩
      · rintro ⟨q, hq | hq, h⟩
        · exact absurd (hq ▸ h) hp
        · exact ⟨q, hq, h⟩

/-- Counterexample to C4 as stated: for the empty query title the guard
returns before comparing, so two titles that are equal after normalization
(the empty query and a candidate whose stored title is empty) produce no
reported match. -/
theorem check_duplicate_empty_title_counterexample :
    _normalize_title (pageTitle ⟨[[]], "u".toList⟩) = _normalize_title [] ∧
    (check_duplicate [] (.ok [⟨[[]], "u".toList⟩])).1 = none := by
  exact ⟨rfl, rfl⟩

/-- C4 (amended): for every nonempty query title, a match is reported iff
some candidate's stored title equals it after whitespace-collapsing,
trimming and lower-casing; the candidate list is arbitrary (in particular
unconstrained by the server-side substring filter), so the normalized
exact match is the only criterion.  The spec's two concrete examples close
the statement. -/
theorem check_duplicate_match_iff (title : List Char) (pages : List NotionPage)
    (h : title ≠ []) :
    ((check_duplicate title (.ok pages)).1.isSome = true ↔
      ∃ p ∈ pages, _normalize_title (pageTitle p) = _normalize_title title) ∧
    _normalize_title "Deep  Learning\nSurvey".toList =
      _normalize_title "deep learning survey".toList ∧
    _normalize_title "Deep Learning Survey II".toList ≠
      _normalize_title "Deep Learning Survey".toList := by
  refine ⟨?_, by decide, by decide⟩
  unfold check_duplicate
  rw [if_neg h]
  exact findMatch_isSome _ pages

/-- Witness for C4 (amended) at a concrete query and candidate list. -/
theorem check_duplicate_match_iff_witness :
    (check_duplicate "Deep  Learning\nSurvey".toList
        (.ok [⟨["deep learning survey".toList], "u".toList⟩])).1.isSome = true := by
  refine ((check_duplicate_match_iff "Deep  Learning\nSurvey".toList
      [⟨["deep learning survey".toList], "u".toList⟩] (by decide)).1).mpr ?_
  exact ⟨_, List.mem_singleton.mpr rfl, by decide⟩

/-- C5: any exception during the catalog query is swallowed —
`check_duplicate` reports "no duplicate found" for every error and every
title, never an error of its own (the embedding is a total function into
an optional result, mirroring the source's blanket `except` handler). -/
theorem check_duplicate_swallows_errors (title : List Char) (e : NotionErr) :
    (check_duplicate title (.error e)).1 = none := by
  unfold check_duplicate
  split <;> rfl

set_option maxRecDepth 20000 in
/-- Counterexample to C6 as stated: a document whose extracted
non-whitespace text is 2 characters (far below 100) over a positive page
count is nevertheless accepted, because the source tests
`len(raw.strip())` — which keeps interior whitespace — not the
non-whitespace character count the claim names. -/
theorem likely_scanned_counterexample :
    specNonWsLen (rawText scannedLikeDoc) = 2 ∧
    0 < scannedLikeDoc.pages.length ∧
    (extract_text_from_pdf true scannedLikeDoc).isOk = true := by
  refine ⟨by decide, by decide, by decide⟩

/-- C6 (amended): for every openable document that is not encrypted (or
authenticates with the empty password), extraction fails with
`LikelyScanned` iff the extracted text, after trimming leading and
trailing whitespace, is shorter than 100 characters while the page count
is positive; consequently no `ExtractedPaper` is ever constructed in that
situation. -/
theorem likely_scanned_iff (fileOk : Bool) (doc : FitzDoc)
    (hfile : fileOk = true) (hopen : doc.openOk = true)
    (hauth : doc.encrypted = true → doc.authEmptyOk = true) :
    (extract_text_from_pdf fileOk doc = .error .likelyScanned ↔
      (strip (rawText doc)).length < 100 ∧ 0 < doc.pages.length) ∧
    (∀ p, extract_text_from_pdf fileOk doc = .ok p →
      ¬ ((strip (rawText doc)).length < 100 ∧ 0 < doc.pages.length)) := by
  subst hfile
  have hA : doc.encrypted = false ∨ doc.authEmptyOk = true := by
    cases hb : doc.encrypted
    · exact Or.inl rfl
    · exact Or.inr (hauth hb)
  by_cases hc : (strip (rawText doc)).length < 100 ∧ 0 < doc.pages.length
  · refine ⟨?_, ?_⟩
    · rcases hA with h | h <;> simp [extract_text_from_pdf, hopen, h, hc]
    · intro p hp
      rcases hA with h | h <;> simp [extract_text_from_pdf, hopen, h, hc] at hp
  · refine ⟨?_, ?_⟩
    · rcases hA with h | h <;> simp [extract_text_from_pdf, hopen, h, hc]
    · intro p _
      exact hc

set_option maxRecDepth 20000 in
/-- Witness for C6 (amended): five pages of 40 extracted characters fail
with `LikelyScanned`; five pages of 500 characters do not. -/
theorem likely_scanned_iff_witness :
    extract_text_from_pdf true fortyCharDoc = .error .likelyScanned ∧
    ¬ extract_text_from_pdf true richTextDoc = .error .likelyScanned := by
  constructor
  · exact ((likely_scanned_iff true fortyCharDoc rfl rfl (by decide)).1).mpr
      (by decide)
  · intro h
    have := ((likely_scanned_iff true richTextDoc rfl rfl (by decide)).1).mp h
    revert this
    decide

set_option maxRecDepth 40000 in
/-- C9: the three accepted shapes of the arXiv DOI
`10.48550/arXiv.2301.12345` (bare, `doi:`-prefixed, resolver URL) all
normalize to the same bare identifier, and — with no open-access hit —
each resolves through the arXiv pattern strategy to
`https://arxiv.org/pdf/2301.12345.pdf`, whatever the redirect strategy
would have produced. -/
theorem doi_normalization_spec :
    doiNormalize "10.48550/arXiv.2301.12345".toList =
      "10.48550/arXiv.2301.12345".toList ∧
    doiNormalize "doi:10.48550/arXiv.2301.12345".toList =
      "10.48550/arXiv.2301.12345".toList ∧
    doiNormalize "https://doi.org/10.48550/arXiv.2301.12345".toList =
      "10.48550/arXiv.2301.12345".toList ∧
    (∀ s3, resolve_doi_to_pdf "10.48550/arXiv.2301.12345".toList none s3 =
      .ok "https://arxiv.org/pdf/2301.12345.pdf".toList) ∧
    (∀ s3, resolve_doi_to_pdf "doi:10.48550/arXiv.2301.12345".toList none s3 =
      .ok "https://arxiv.org/pdf/2301.12345.pdf".toList) ∧
    (∀ s3, resolve_doi_to_pdf "https://doi.org/10.48550/arXiv.2301.12345".toList
        none s3 =
      .ok "https://arxiv.org/pdf/2301.12345.pdf".toList) := by
  refine ⟨by decide, by decide, by decide, fun s3 => rfl, fun s3 => rfl,
    fun s3 => rfl⟩

/-- A pattern found in the appended tail is found in the whole string. -/
theorem containsSub_append_right (pat s t : List Char)
    (h : containsSub pat t = true) : containsSub pat (s ++ t) = true := by
  induction s with
  | nil => simpa using h
  | cons c cs ih =>
    simp only [List.cons_append, containsSub, Bool.or_eq_true]
    exact Or.inr ih

/-- C7: an empty or unparseable service reply aborts the analyze loop at
once — the fail-fast `RuntimeError` — with no further attempts, while
transport errors are retried with exponential back-off seeded at the base
delay and doubling each attempt, `ServiceUnavailable` surfacing only after
the third attempt. -/
theorem analyze_retry_spec (text : List Char)
    (outs : List Char → Nat → GeminiOutcome) (e : Nat → List Char) :
    (∀ k, k < REQUEST_RETRY_COUNT →
      (∀ j, 1 ≤ j → j ≤ k → outs (_truncate text) j = .transportError (e j)) →
      (outs (_truncate text) (k + 1) = .emptyReply ∨
        outs (_truncate text) (k + 1) = .unparseable) →
      analyze_paper text outs =
        (.invalidResponse, k + 1,
          (List.range k).map (fun i => REQUEST_RETRY_DELAY * 2 ^ i))) ∧
    ((∀ j, 1 ≤ j → j ≤ REQUEST_RETRY_COUNT →
        outs (_truncate text) j = .transportError (e j)) →
      analyze_paper text outs =
        (.serviceUnavailable (some (e 3)), 3,
          [REQUEST_RETRY_DELAY, REQUEST_RETRY_DELAY * 2])) := by
  constructor
  · intro k hk hpre hlast
    have hk3 : k < 3 := hk
    interval_cases k
    · rcases hlast with h | h <;>
        simp [analyze_paper, analyzeAux, REQUEST_RETRY_COUNT, h, List.range_succ]
    · rcases hlast with h | h <;>
        simp [analyze_paper, analyzeAux, REQUEST_RETRY_COUNT, h, List.range_succ,
          hpre 1 (by decide) (by decide)]
    · rcases hlast with h | h <;>
        simp [analyze_paper, analyzeAux, REQUEST_RETRY_COUNT, h, List.range_succ,
          hpre 1 (by decide) (by decide), hpre 2 (by decide) (by decide)]
  · intro hpre
    simp [analyze_paper, analyzeAux, REQUEST_RETRY_COUNT,
      hpre 1 (by decide) (by decide), hpre 2 (by decide) (by decide),
      hpre 3 (by decide) (by decide)]

/-- Witness for C7: a transport error on attempt 1 followed by an empty
reply on attempt 2 fails fast at attempt 2 after one base-delay sleep; a
transport error on every attempt fails with the post-loop error after
attempt 3 with sleeps of base and doubled base. -/
theorem analyze_retry_spec_witness :
    analyze_paper "some paper".toList
        (fun _ n => if n = 1 then .transportError "boom".toList else .emptyReply) =
      (.invalidResponse, 2, [REQUEST_RETRY_DELAY]) ∧
    analyze_paper "some paper".toList
        (fun _ _ => .transportError "boom".toList) =
      (.serviceUnavailable (some "boom".toList), 3,
        [REQUEST_RETRY_DELAY, REQUEST_RETRY_DELAY * 2]) := by
  constructor
  · have h := (analyze_retry_spec "some paper".toList
        (fun _ n => if n = 1 then .transportError "boom".toList else .emptyReply)
        (fun _ => "boom".toList)).1 1 (by decide)
        (by intro j h1 h2
            have hj : j = 1 := le_antisymm h2 h1
            subst hj
            rfl)
        (Or.inl rfl)
    simpa [List.range_succ] using h
  · exact (analyze_retry_spec "some paper".toList
        (fun _ _ => .transportError "boom".toList) (fun _ => "boom".toList)).2
      (fun j h1 h2 => rfl)

/-- C8: a download whose every attempt raises a network error fails after
exactly three attempts separated by the fixed delay, and the error text
distinguishes the failure class — a 403 suggests the DOI and the manual
PDF fallback, a 404 says the URL was not found and should be checked,
anything else reports the bare failure line. -/
theorem download_retry_spec (url : List Char) (outs : Nat → DlOutcome)
    (e : Nat → List Char)
    (hfail : ∀ j, 1 ≤ j → j ≤ REQUEST_RETRY_COUNT → outs j = .reqError (e j)) :
    download_pdf url outs =
      (.error (downloadErrMsg (preprocessUrl url) (e 3)), 3,
        [REQUEST_RETRY_DELAY, REQUEST_RETRY_DELAY]) ∧
    ((containsSub "403".toList (e 3) || containsSub "Forbidden".toList (e 3)) = true →
      containsSub "--doi".toList (downloadErrMsg (preprocessUrl url) (e 3)) = true ∧
      containsSub "--pdf".toList (downloadErrMsg (preprocessUrl url) (e 3)) = true) ∧
    ((containsSub "403".toList (e 3) || containsSub "Forbidden".toList (e 3)) = false →
      containsSub "404".toList (e 3) = true →
      containsSub "URL not found (404). Check that the URL is correct.".toList
        (downloadErrMsg (preprocessUrl url) (e 3)) = true) ∧
    ((containsSub "403".toList (e 3) || containsSub "Forbidden".toList (e 3)) = false →
      containsSub "404".toList (e 3) = false →
      downloadErrMsg (preprocessUrl url) (e 3) =
        "Download failed after 3 attempts: ".toList ++ e 3) := by
  refine ⟨?_, ?_, ?_, ?_⟩
  · simp [download_pdf, downloadAux, REQUEST_RETRY_COUNT,
      hfail 1 (by decide) (by decide), hfail 2 (by decide) (by decide),
      hfail 3 (by decide) (by decide)]
  · intro h403
    unfold downloadErrMsg
    rw [h403]
    by_cases hsd : containsSub "sciencedirect.com".toList (preprocessUrl url) = true
    · rw [if_pos rfl, if_pos hsd]
      constructor <;> exact containsSub_append_right _ _ _ (by decide)
    · rw [if_pos rfl, if_neg hsd]
      constructor <;> exact containsSub_append_right _ _ _ (by decide)
  · intro h403 h404
    unfold downloadErrMsg
    rw [h403, h404]
    simp only [Bool.false_eq_true, if_false, if_pos rfl]
    exact containsSub_append_right _ _ _ (by decide)
  · intro h403 h404
    unfold downloadErrMsg
    rw [h403, h404]
    simp

set_option maxRecDepth 20000 in
/-- Witness for C8 at a 404 failure on a concrete URL. -/
theorem download_retry_spec_witness :
    download_pdf "http://example.test/a.pdf".toList
        (fun _ => .reqError "404 Client Error: Not Found".toList) =
      (.error (downloadErrMsg (preprocessUrl "http://example.test/a.pdf".toList)
          "404 Client Error: Not Found".toList), 3,
        [REQUEST_RETRY_DELAY, REQUEST_RETRY_DELAY]) ∧
    containsSub "URL not found (404). Check that the URL is correct.".toList
      (downloadErrMsg (preprocessUrl "http://example.test/a.pdf".toList)
        "404 Client Error: Not Found".toList) = true := by
  constructor
  · exact (download_retry_spec "http://example.test/a.pdf".toList
      (fun _ => .reqError "404 Client Error: Not Found".toList)
      (fun _ => "404 Client Error: Not Found".toList)
      (fun j h1 h2 => rfl)).1
  · exact (download_retry_spec "http://example.test/a.pdf".toList
      (fun _ => .reqError "404 Client Error: Not Found".toList)
      (fun _ => "404 Client Error: Not Found".toList)
      (fun j h1 h2 => rfl)).2.2.1 (by decide) (by decide)

/-- The create stage never touches the file system, the `downloaded` flag
or the `pdf_path` variable. -/
theorem createStage_state (env : PipeEnv) (a : Analysis) (fs : List Char → Bool)
    (evs : List Ev) (dl : Bool) (pp : Option (List Char)) :
    (createStage env a fs evs dl pp).fs = fs ∧
    (createStage env a fs evs dl pp).downloaded = dl ∧
    (createStage env a fs evs dl pp).pdfPath = pp := by
  unfold createStage
  cases hc : env.createResult with
  | ok v => exact ⟨rfl, rfl, rfl⟩
  | error se => cases se <;> exact ⟨rfl, rfl, rfl⟩

/-- The analyze stage never touches the file system, the flag or the path. -/
theorem analyzeStage_state (env : PipeEnv) (paper : ExtractedPaper)
    (fs : List Char → Bool) (evs : List Ev) (dl : Bool) (pp : Option (List Char)) :
    (analyzeStage env paper fs evs dl pp).fs = fs ∧
    (analyzeStage env paper fs evs dl pp).downloaded = dl ∧
    (analyzeStage env paper fs evs dl pp).pdfPath = pp := by
  unfold analyzeStage
  cases ha : env.analyzeResult with
  | ok a0 => exact createStage_state env _ fs _ dl pp
  | error se => cases se <;> exact ⟨rfl, rfl, rfl⟩

/-- The duplicate-guard stage never touches the file system, the flag or
the path. -/
theorem dupStage_state (env : PipeEnv) (paper : ExtractedPaper)
    (fs : List Char → Bool) (evs : List Ev) (dl : Bool) (pp : Option (List Char)) :
    (dupStage env paper fs evs dl pp).fs = fs ∧
    (dupStage env paper fs evs dl pp).downloaded = dl ∧
    (dupStage env paper fs evs dl pp).pdfPath = pp := by
  unfold dupStage
  by_cases ht : truthyOpt paper.title = true
  · rw [if_pos ht]
    dsimp only
    cases hres : (check_duplicate (paper.title.getD []) env.dupService).1 with
    | none => exact analyzeStage_state env paper fs _ dl pp
    | some u =>
      dsimp only
      by_cases hu : u = []
      · rw [if_pos hu]
        exact analyzeStage_state env paper fs _ dl pp
      · rw [if_neg hu]
        exact ⟨rfl, rfl, rfl⟩
  · rw [if_neg ht]
    exact analyzeStage_state env paper fs evs dl pp

/-- The extract stage never touches the file system, the flag or the path. -/
theorem extractStage_state (env : PipeEnv) (fs : List Char → Bool)
    (evs : List Ev) (dl : Bool) (pp : Option (List Char)) :
    (extractStage env fs evs dl pp).fs = fs ∧
    (extractStage env fs evs dl pp).downloaded = dl ∧
    (extractStage env fs evs dl pp).pdfPath = pp := by
  unfold extractStage
  cases he : env.extractResult with
  | ok paper => exact dupStage_state env paper fs _ dl pp
  | error se => cases se <;> exact ⟨rfl, rfl, rfl⟩

/-- C1: when the pipeline itself fetched the PDF (URL input, download
returned a temp path), the temp file is absent from the file system when
the run returns — on every exit path, since the environment ranges over
success, failure and exception outcomes of every later stage; when the
caller supplied a local path, the file system is returned exactly as it
was, so a pre-existing file is never deleted. -/
theorem process_cleans_temp_file (input p : List Char) (env : PipeEnv)
    (fs0 : List Char → Bool) (hp : p ≠ []) (hd : env.downloadResult = .ok p) :
    (process_single_paper true input env fs0).fs p = false ∧
    (∀ q, (process_single_paper false input env fs0).fs q = fs0 q) := by
  constructor
  · have hb : runBody true input env fs0 =
        extractStage env (addFile fs0 p) [Ev.downloadEv] true (some p) := by
      simp [runBody, hd]
    have hst := extractStage_state env (addFile fs0 p) [Ev.downloadEv] true (some p)
    have hpe : p.isEmpty = false := by
      cases p with
      | nil => exact absurd rfl hp
      | cons a l => rfl
    simp [process_single_paper, hb, hst.1, hst.2.1, hst.2.2, addFile,
      removeFile, hpe]
  · intro q
    by_cases hin : fs0 input = true
    · have hb : runBody false input env fs0 =
          extractStage env fs0 [] false (some input) := by
        simp [runBody, hin]
      have hst := extractStage_state env fs0 [] false (some input)
      simp [process_single_paper, hb, hst.1, hst.2.1, hst.2.2]
    · have hb : runBody false input env fs0 =
          ⟨.failure, fs0, [], false, some input⟩ := by
        simp [runBody, hin]
      simp [process_single_paper, hb]

/-- Witness for C1: a concrete successful URL run deletes its temp file. -/
theorem process_cleans_temp_file_witness :
    (process_single_paper true "http://example.test/a.pdf".toList sampleEnvUrl
        (fun _ => false)).fs "/tmp/tmpabc.pdf".toList = false :=
  (process_cleans_temp_file "http://example.test/a.pdf".toList
    "/tmp/tmpabc.pdf".toList sampleEnvUrl (fun _ => false) (by decide) rfl).1

/-- The create stage always records its call. -/
theorem createStage_events (env : PipeEnv) (a : Analysis) (fs : List Char → Bool)
    (evs : List Ev) (dl : Bool) (pp : Option (List Char)) :
    (createStage env a fs evs dl pp).events = evs ++ [Ev.createEv] := by
  unfold createStage
  cases hc : env.createResult with
  | ok v => rfl
  | error se => cases se <;> rfl

/-- Events of the analyze stage when the analysis call fails. -/
theorem analyzeStage_events_error (env : PipeEnv) (paper : ExtractedPaper)
    (fs : List Char → Bool) (evs : List Ev) (dl : Bool) (pp : Option (List Char))
    (se : StepErr) (h : env.analyzeResult = .error se) :
    (analyzeStage env paper fs evs dl pp).events = evs ++ [Ev.analyzeEv] := by
  unfold analyzeStage
  rw [h]
  cases se <;> rfl

/-- Events of the analyze stage when the analysis call succeeds. -/
theorem analyzeStage_events_ok (env : PipeEnv) (paper : ExtractedPaper)
    (fs : List Char → Bool) (evs : List Ev) (dl : Bool) (pp : Option (List Char))
    (a : Analysis) (h : env.analyzeResult = .ok a) :
    (analyzeStage env paper fs evs dl pp).events =
      evs ++ [Ev.analyzeEv] ++ [Ev.createEv] := by
  unfold analyzeStage
  rw [h]
  exact createStage_events env _ fs _ dl pp

/-- A paper with a Python-falsy title goes straight from the duplicate
guard to analysis. -/
theorem dupStage_untitled (env : PipeEnv) (paper : ExtractedPaper)
    (fs : List Char → Bool) (evs : List Ev) (dl : Bool) (pp : Option (List Char))
    (ht : truthyOpt paper.title = false) :
    dupStage env paper fs evs dl pp = analyzeStage env paper fs evs dl pp := by
  unfold dupStage
  rw [ht]
  simp

/-- The extract stage on a successful extraction. -/
theorem extractStage_ok (env : PipeEnv) (fs : List Char → Bool) (evs : List Ev)
    (dl : Bool) (pp : Option (List Char)) (paper : ExtractedPaper)
    (h : env.extractResult = .ok paper) :
    extractStage env fs evs dl pp =
      dupStage env paper fs (evs ++ [Ev.extractEv]) dl pp := by
  unfold extractStage
  rw [h]

/-- C10: when the extractor detects no title (absent or empty), the
duplicate guard is skipped — no catalog query event occurs and no
duplicate can short-circuit the run — the paper proceeds to analysis, and
to the catalog write when analysis succeeds; independently,
`check_duplicate` itself returns `none` for the empty title without
contacting the catalog. -/
theorem untitled_skips_duplicate_check (input : List Char) (env : PipeEnv)
    (fs0 : List Char → Bool) (paper : ExtractedPaper)
    (hfs : fs0 input = true) (hex : env.extractResult = .ok paper)
    (ht : truthyOpt paper.title = false) :
    Ev.dupQueryEv ∉ (process_single_paper false input env fs0).events ∧
    Ev.analyzeEv ∈ (process_single_paper false input env fs0).events ∧
    (∀ a, env.analyzeResult = .ok a →
      Ev.createEv ∈ (process_single_paper false input env fs0).events) ∧
    (∀ svc, check_duplicate [] svc = (none, false)) := by
  have hev : (process_single_paper false input env fs0).events =
      (analyzeStage env paper fs0 [Ev.extractEv] false (some input)).events := by
    unfold process_single_paper
    have hb : runBody false input env fs0 =
        dupStage env paper fs0 ([] ++ [Ev.extractEv]) false (some input) := by
      unfold runBody
      rw [if_pos hfs]
      exact extractStage_ok env fs0 [] false (some input) paper hex
    rw [hb, dupStage_untitled env paper fs0 _ false (some input) ht]
    simp
  cases ha : env.analyzeResult with
  | error se =>
    have he := analyzeStage_events_error env paper fs0 [Ev.extractEv] false
      (some input) se ha
    refine ⟨?_, ?_, ?_, fun svc => rfl⟩
    · rw [hev, he]; decide
    · rw [hev, he]; decide
    · intro a ha2
      simp at ha2
  | ok a =>
    have he := analyzeStage_events_ok env paper fs0 [Ev.extractEv] false
      (some input) a ha
    refine ⟨?_, ?_, ?_, fun svc => rfl⟩
    · rw [hev, he]; decide
    · rw [hev, he]; decide
    · intro a2 ha2
      rw [hev, he]; decide

/-- Witness for C10: a concrete run over a paper whose detected title is
the empty string makes no duplicate query yet reaches analysis. -/
theorem untitled_skips_duplicate_check_witness :
    Ev.dupQueryEv ∉ (process_single_paper false "paper.pdf".toList sampleEnvUrl
      (fun _ => true)).events ∧
    Ev.analyzeEv ∈ (process_single_paper false "paper.pdf".toList sampleEnvUrl
      (fun _ => true)).events := by
  have h := untitled_skips_duplicate_check "paper.pdf".toList sampleEnvUrl
    (fun _ => true) untitledPaper rfl rfl (by decide)
  exact ⟨h.1, h.2.1⟩

end PaperDoc
